import Mathlib

/-!
Verification development for the klugai_iam repository: a shallow embedding of
the authentication service's `UserService` (user_service.py), the API
gateway's route handlers (api-gateway/main.py), and the authorization
service's `/authorize` endpoint (authorization-service/main.py), together
with theorems settling the frozen specification claims.
-/

set_option maxRecDepth 4000

namespace IAM

/-! ## String helpers

Executable counterparts of the Python string operations used by the source
(`str.startswith`, `str.endswith`, `str.replace(pat, "", 1)`, substring
membership), defined over character lists so that every proof can evaluate
them inside the kernel. -/

/-- Models Python `s.startswith(pre)`. -/
def strStartsWith (s pre : String) : Bool :=
  pre.data.isPrefixOf s.data

/-- Models Python `s.endswith(suf)`. -/
def strEndsWith (s suf : String) : Bool :=
  suf.data.isSuffixOf s.data

/-- Removes the first (leftmost) occurrence of `pat` from `l`; the list-level
counterpart of Python `s.replace(pat, "", 1)`. -/
def stripFirstOccur (pat : List Char) : List Char → List Char
  | [] => []
  | c :: cs =>
    if pat.isPrefixOf (c :: cs) then (c :: cs).drop pat.length
    else c :: stripFirstOccur pat cs

/-- Models Python `s.replace(pat, "", 1)`. -/
def strRemoveFirst (s pat : String) : String :=
  String.mk (stripFirstOccur pat.data s.data)

/-- Decides whether `pat` occurs as a contiguous substring of `s` (Python
`pat in s`). -/
def hasSubstrAux (pat : List Char) : List Char → Bool
  | [] => pat.isEmpty
  | c :: cs => pat.isPrefixOf (c :: cs) || hasSubstrAux pat cs

/-- Decides whether `pat` occurs as a contiguous substring of `s`. -/
def hasSubstr (pat s : String) : Bool :=
  hasSubstrAux pat.data s.data

/-! ## Password hashing model

bcrypt is modelled abstractly: `bcryptHashpw password salt` records the salt
and the password it was derived from, and `bcryptCheckpw` succeeds exactly
when the candidate equals the hashed password.  This captures the only
properties of bcrypt the service relies on (a check against
`hashpw(p, salt)` succeeds iff the candidate is `p`). -/

structure BcryptHash where
  salt : Nat
  secret : String
  deriving DecidableEq, Repr

/-- Models `bcrypt.hashpw(password, salt)` from `_hash_password`. -/
def bcryptHashpw (password : String) (salt : Nat) : BcryptHash :=
  ⟨salt, password⟩

/-- Models `bcrypt.checkpw(password, hash)` from `_verify_password`. -/
def bcryptCheckpw (password : String) (h : BcryptHash) : Bool :=
  h.secret == password

/-! ## User records, cache and service state

The user record mirrors the column set of `UserModel` as materialised by
`get_user_by_id` / `get_user_by_username` in user_service.py.  Timestamps
are `Nat` (seconds); `datetime.utcnow()` is passed in explicitly as `now`.
The read-time `display_name or username` defaulting and the ISO
formatting of `created_at` are presentation-only and are not separately
modelled: the cached dict holds the same values as the row for every field
the service logic reads. -/

structure UserRec where
  id : String
  username : String
  email : String
  first_name : Option String
  last_name : Option String
  display_name : Option String
  roles : List String
  primary_role : String
  is_active : Bool
  email_verified : Bool
  mfa_enabled : Bool
  password_hash : BcryptHash
  failed_login_attempts : Nat
  locked_until : Option Nat
  last_login : Option Nat
  created_at : Nat
  updated_at : Option Nat
  deriving DecidableEq, Repr

/-- One entry of `self._user_cache`: the cached user dict plus its absolute
expiry time (`datetime.utcnow().timestamp() + self._cache_ttl`). -/
structure CacheEntry where
  user : UserRec
  expires : Nat
  deriving DecidableEq, Repr

/-- An audit row written by `_log_auth_event`; `reason` is the `"reason"`
field of the metadata mapping when present. -/
structure AuditEvent where
  user_id : Option String
  event_type : String
  success : Bool
  reason : Option String
  deriving DecidableEq, Repr

/-- State of one `UserService` instance: the users table, the in-memory
`_user_cache` (an association list keyed by the same strings the Python
dict uses) and the audit log table. -/
structure SvcState where
  db : List UserRec
  cache : List (String × CacheEntry)
  audit : List AuditEvent
  deriving DecidableEq, Repr

/-- Security-relevant configuration of the service
(`config.security.max_failed_attempts` and the lockout duration, already
converted to time units). -/
structure AuthConfig where
  max_failed_attempts : Nat
  lockout_duration : Nat
  deriving DecidableEq, Repr

/-- The hard-coded `self._cache_ttl = 300` (seconds). -/
def cacheTtl : Nat := 300

/-- Dict lookup in `self._user_cache`. -/
def cacheGet (cache : List (String × CacheEntry)) (key : String) : Option CacheEntry :=
  (cache.find? (fun kv => kv.1 == key)).map (·.2)

/-- Dict assignment `self._user_cache[key] = entry` (replaces any existing
binding of `key`). -/
def cacheSet (cache : List (String × CacheEntry)) (key : String) (e : CacheEntry) :
    List (String × CacheEntry) :=
  (key, e) :: cache.filter (fun kv => kv.1 != key)

/-- Models `_invalidate_user_cache`: deletes every cache key that satisfies
`key.startswith(f"user_id:{user_id}") or key.endswith(f":{user_id}")`.
Note that the username-keyed entry `username:{username}` matches neither
pattern unless the username happens to equal the user id. -/
def invalidateUserCache (cache : List (String × CacheEntry)) (user_id : String) :
    List (String × CacheEntry) :=
  cache.filter (fun kv =>
    !(strStartsWith kv.1 ("user_id:" ++ user_id) || strEndsWith kv.1 (":" ++ user_id)))

/-- SQL `UPDATE users SET ... WHERE id = uid`, as a row-wise map. -/
def dbUpdateUser (db : List UserRec) (uid : String) (f : UserRec → UserRec) : List UserRec :=
  db.map (fun u => if u.id == uid then f u else u)

/-- Models `_log_auth_event` (appends one audit row). -/
def logAuthEvent (s : SvcState) (uid : Option String) (event_type : String)
    (success : Bool) (reason : Option String) : SvcState :=
  { s with audit := s.audit ++ [⟨uid, event_type, success, reason⟩] }

/-! ## UserService operations -/

/-- Models `get_user_by_username`: consult the `username:{username}` cache
key; a cached entry is served while `expires > now`; otherwise query the
users table and, on a hit, cache the record with `expires = now + 300`. -/
def getUserByUsername (s : SvcState) (username : String) (now : Nat) :
    Option UserRec × SvcState :=
  let key := "username:" ++ username
  let cached : Option UserRec :=
    match cacheGet s.cache key with
    | some e => if e.expires > now then some e.user else none
    | none => none
  match cached with
  | some u => (some u, s)
  | none =>
    match s.db.find? (fun u => u.username == username) with
    | none => (none, s)
    | some u => (some u, { s with cache := cacheSet s.cache key ⟨u, now + cacheTtl⟩ })

/-- Models `get_user_by_id` (same read-through caching, keyed by
`user_id:{user_id}`). -/
def getUserById (s : SvcState) (user_id : String) (now : Nat) :
    Option UserRec × SvcState :=
  let key := "user_id:" ++ user_id
  let cached : Option UserRec :=
    match cacheGet s.cache key with
    | some e => if e.expires > now then some e.user else none
    | none => none
  match cached with
  | some u => (some u, s)
  | none =>
    match s.db.find? (fun u => u.id == user_id) with
    | none => (none, s)
    | some u => (some u, { s with cache := cacheSet s.cache key ⟨u, now + cacheTtl⟩ })

/-- Models the Python truthiness test
`user["locked_until"] and user["locked_until"] > datetime.utcnow()`. -/
def lockedNow (u : UserRec) (now : Nat) : Bool :=
  match u.locked_until with
  | some t => t > now
  | none => false

/-- Models `_handle_failed_login`: increment the failure count read from the
(possibly cached) `user` dict, lock the account when the new count reaches
`max_failed_attempts`, write both fields back by id, and invalidate the
user's cache entries. -/
def handleFailedLogin (cfg : AuthConfig) (user : UserRec) (now : Nat) (s : SvcState) :
    SvcState :=
  let failed := user.failed_login_attempts + 1
  let locked : Option Nat :=
    if failed ≥ cfg.max_failed_attempts then some (now + cfg.lockout_duration) else none
  { s with
    db := dbUpdateUser s.db user.id (fun u =>
      { u with failed_login_attempts := failed, locked_until := locked,
               updated_at := some now })
    cache := invalidateUserCache s.cache user.id }

/-- Models `_reset_failed_attempts`. -/
def resetFailedAttempts (uid : String) (now : Nat) (s : SvcState) : SvcState :=
  { s with
    db := dbUpdateUser s.db uid (fun u =>
      { u with failed_login_attempts := 0, locked_until := none, updated_at := some now })
    cache := invalidateUserCache s.cache uid }

/-- Models `_update_last_login`. -/
def updateLastLogin (uid : String) (now : Nat) (s : SvcState) : SvcState :=
  { s with
    db := dbUpdateUser s.db uid (fun u =>
      { u with last_login := some now, updated_at := some now })
    cache := invalidateUserCache s.cache uid }

/-- Models `authenticate_user`: look up by username, then check
`is_active`, the lockout window, and the password, in that order; on a
wrong password run `_handle_failed_login`; on success reset the failure
counter and stamp `last_login`.  Every outcome appends an audit row with
the corresponding reason. -/
def authenticateUser (cfg : AuthConfig) (username password : String) (now : Nat)
    (s : SvcState) : Option UserRec × SvcState :=
  match getUserByUsername s username now with
  | (none, s1) =>
    (none, logAuthEvent s1 none "login_failed" false (some "user_not_found"))
  | (some u, s1) =>
    if !u.is_active then
      (none, logAuthEvent s1 (some u.id) "login_failed" false (some "account_inactive"))
    else if lockedNow u now then
      (none, logAuthEvent s1 (some u.id) "login_failed" false (some "account_locked"))
    else if !(bcryptCheckpw password u.password_hash) then
      let s2 := handleFailedLogin cfg u now s1
      (none, logAuthEvent s2 (some u.id) "login_failed" false (some "invalid_password"))
    else
      let s2 := resetFailedAttempts u.id now s1
      let s3 := updateLastLogin u.id now s2
      (some u, logAuthEvent s3 (some u.id) "login_success" true none)

/-- Models `change_password`: rehash, `UPDATE ... WHERE id = uid`, and on
`rowcount > 0` commit, invalidate the user's cache entries and audit.  The
fresh `bcrypt.gensalt()` is passed in as `salt`. -/
def changePassword (uid newPassword : String) (salt : Nat) (now : Nat) (s : SvcState) :
    Bool × SvcState :=
  let h := bcryptHashpw newPassword salt
  if s.db.any (fun u => u.id == uid) then
    let s1 :=
      { s with
        db := dbUpdateUser s.db uid (fun u => { u with password_hash := h, updated_at := some now })
        cache := invalidateUserCache s.cache uid }
    (true, logAuthEvent s1 (some uid) "password_changed" true none)
  else (false, s)

/-- Input dictionary of `create_user`.  The three required fields
(`username`, `email`, `password`) are fields of the structure, so the
`Missing required field` branch of the source cannot fire; the remaining
fields carry the same defaults the source supplies via `dict.get`. -/
structure NewUserData where
  username : String
  email : String
  password : String
  first_name : Option String := none
  last_name : Option String := none
  display_name : Option String := none
  roles : List String := ["user"]
  primary_role : String := "user"
  is_active : Bool := true
  email_verified : Bool := false
  mfa_enabled : Bool := false
  deriving DecidableEq, Repr

/-- The row inserted by `create_user` for input `data`, with the generated
`user_id` and bcrypt salt passed in.  The counter, lockout and login-stamp
columns are not listed in the `UserModel(...)` constructor call; their
initial values (0 / null / null) are modelled from the spec's data-model
table (`failed_login_attempts (≥0)`, nullable `locked_until`), the models
module not being under src/. -/
def mkUser (data : NewUserData) (newId : String) (salt : Nat) (now : Nat) : UserRec :=
  { id := newId
    username := data.username
    email := data.email
    first_name := data.first_name
    last_name := data.last_name
    display_name := data.display_name
    roles := data.roles
    primary_role := data.primary_role
    is_active := data.is_active
    email_verified := data.email_verified
    mfa_enabled := data.mfa_enabled
    password_hash := bcryptHashpw data.password salt
    failed_login_attempts := 0
    locked_until := none
    last_login := none
    created_at := now
    updated_at := none }

/-- Models `create_user`: reject (returning `none`, as the caught
`ValueError` does) when `get_user_by_username` finds the username already
taken, otherwise insert the new row and audit `user_created`. -/
def createUser (data : NewUserData) (newId : String) (salt : Nat) (now : Nat)
    (s : SvcState) : Option String × SvcState :=
  match getUserByUsername s data.username now with
  | (some _, s1) => (none, s1)
  | (none, s1) =>
    let s2 := { s1 with db := s1.db ++ [mkUser data newId salt now] }
    (some newId, logAuthEvent s2 (some newId) "user_created" true none)

/-- The `admin_data` dictionary of `_create_default_admin`. -/
def adminData : NewUserData :=
  { username := "admin"
    email := "admin@reusable-iam.local"
    password := "admin123"
    first_name := some "System"
    last_name := some "Administrator"
    display_name := some "System Administrator"
    roles := ["admin", "user"]
    primary_role := "admin"
    is_active := true
    email_verified := true }

/-- Models `_create_default_admin`: return unchanged when a user named
`admin` is found, otherwise create the default admin via `create_user`. -/
def createDefaultAdmin (newId : String) (salt : Nat) (now : Nat) (s : SvcState) : SvcState :=
  match getUserByUsername s "admin" now with
  | (some _, s1) => s1
  | (none, s1) => (createUser adminData newId salt now s1).2

/-- Models the `/auth/login` endpoint's mapping from the
`authenticate_user` result to an HTTP status and detail.  `None` maps to
401 `Invalid credentials`.  When a user is returned, the handler evaluates
`user.is_active` — but `authenticate_user` returns a plain dict, so the
attribute access raises `AttributeError`, which the blanket
`except Exception` turns into 500 `Login failed`; the 403 and 423 branches
(`user.is_active` / `user.is_locked`, the latter not even a key of the
dict) are unreachable. -/
def loginEndpoint (authResult : Option UserRec) : Nat × String :=
  match authResult with
  | none => (401, "Invalid credentials")
  | some _ => (500, "Login failed")

/-! ## API gateway: authz-forwarding handlers (api-gateway/main.py)

Each handler body is `try: ...forward_request(...) except HTTPException:
raise except Exception as e: ...`.  The outcome of the `try` body is
modelled by `ForwardOutcome`: the upstream's response, an `HTTPException`
raised inside the body (for instance 429 from `check_rate_limit`, or 401 /
403 from the auth middleware in the admin-gated handlers), or any other
exception (for instance `httpx.ConnectError` when the upstream is down). -/

inductive ForwardOutcome where
  | ok (resp : String)
  | httpExc (status : Nat) (detail : String)
  | exc (msg : String)
  deriving DecidableEq, Repr

/-- The synthetic fallback dict returned by the `/api/v1/authz/authorize`
handler's `except Exception` branch, with `time.time()` passed as `now`. -/
structure FallbackBody where
  success : Bool
  effect : String
  reason : String
  attributes_used : List String
  evaluation_time_ms : Nat
  cache_hit : Bool
  obligations : List String
  advice : List String
  timestamp : Nat
  request_id : String
  deriving DecidableEq, Repr

/-- The literal fallback body from the source. -/
def gwFallbackBody (now : Nat) : FallbackBody :=
  { success := true
    effect := "permit"
    reason := "Authorization service unavailable - using development fallback"
    attributes_used := ["fallback"]
    evaluation_time_ms := 0
    cache_hit := false
    obligations := []
    advice := ["Using development mode fallback due to service unavailable"]
    timestamp := now
    request_id := "gateway_fallback_" ++ toString now }

/-- What the gateway hands back to the client: the upstream response, the
hard-coded development-fallback JSON body, or an error produced by the
`HTTPException` → error-envelope path. -/
inductive GwResponse where
  | upstream (resp : String)
  | fallbackPermit (body : FallbackBody)
  | httpError (status : Nat) (detail : String)
  deriving DecidableEq, Repr

/-- Models the `POST /api/v1/authz/authorize` handler: re-raise
`HTTPException`s, and on any other exception return the fallback permit. -/
def gwAuthorize (o : ForwardOutcome) (now : Nat) : GwResponse :=
  match o with
  | .ok r => .upstream r
  | .httpExc s d => .httpError s d
  | .exc _ => .fallbackPermit (gwFallbackBody now)

/-- Models the `POST /api/v1/authz/authorize/bulk` handler. -/
def gwAuthorizeBulk (o : ForwardOutcome) : GwResponse :=
  match o with
  | .ok r => .upstream r
  | .httpExc s d => .httpError s d
  | .exc _ => .httpError 500 "Authorization service unavailable"

/-- Models the `POST /api/v1/authz/authorize/batch-optimized` handler. -/
def gwAuthorizeBatchOptimized (o : ForwardOutcome) : GwResponse :=
  match o with
  | .ok r => .upstream r
  | .httpExc s d => .httpError s d
  | .exc _ => .httpError 500 "Authorization service unavailable"

/-- Models the `GET /api/v1/authz/policies` handler's exception structure
(the 401/403 pre-checks raise `HTTPException`s, covered by `httpExc`). -/
def gwListPolicies (o : ForwardOutcome) : GwResponse :=
  match o with
  | .ok r => .upstream r
  | .httpExc s d => .httpError s d
  | .exc _ => .httpError 500 "Authorization service unavailable"

/-- Models the `POST /api/v1/authz/policies` handler. -/
def gwCreatePolicy (o : ForwardOutcome) : GwResponse :=
  match o with
  | .ok r => .upstream r
  | .httpExc s d => .httpError s d
  | .exc _ => .httpError 500 "Authorization service unavailable"

/-- Models the `GET /api/v1/authz/audit/decisions` handler. -/
def gwQueryAudit (o : ForwardOutcome) : GwResponse :=
  match o with
  | .ok r => .upstream r
  | .httpExc s d => .httpError s d
  | .exc _ => .httpError 500 "Authorization service unavailable"

/-- Models the `GET /api/v1/authz/status` handler (no `except
HTTPException: raise` clause in the source, but the body raises none). -/
def gwAuthzStatus (o : ForwardOutcome) : GwResponse :=
  match o with
  | .ok r => .upstream r
  | .httpExc s d => .httpError s d
  | .exc _ => .httpError 500 "Authorization service unavailable"

/-! ## API gateway: generic proxy route (`/api/v1/{path}`) -/

inductive TargetService where
  | authentication
  | authorization
  deriving DecidableEq, Repr

/-- Models the routing block of `proxy_request`: `auth/` and `users/`
paths go to the authentication service with `service_path = path`;
`authz/` and `policies/` paths go to the authorization service with
`service_path = path.replace("authz/", "", 1)`; anything else has no
service. -/
def routeProxy (path : String) : Option (TargetService × String) :=
  if strStartsWith path "auth/" || strStartsWith path "users/" then
    some (.authentication, path)
  else if strStartsWith path "authz/" || strStartsWith path "policies/" then
    some (.authorization, strRemoveFirst path "authz/")
  else
    none

/-- What `proxy_request` does with a path: forward to the resolved service
at `f"/{service_path}"`, or raise 404 `Service not found`. -/
inductive ProxyAction where
  | forward (svc : TargetService) (fullPath : String)
  | reject (status : Nat) (detail : String)
  deriving DecidableEq, Repr

/-- Models `proxy_request` end to end on the routing level. -/
def proxyHandle (path : String) : ProxyAction :=
  match routeProxy path with
  | some (svc, sp) => .forward svc ("/" ++ sp)
  | none => .reject 404 "Service not found"

/-- Modelled from the spec's words (claim C6): paths starting with
`auth/` or `users/` are forwarded unchanged to the authentication
service; paths starting with `authz/` or `policies/` are forwarded to the
authorization service "with the `authz/` prefix stripped"; other paths
match no service.  This is the comparison definition for the refinement
claim, not a translation of the source. -/
def routeProxySpecClaim (path : String) : Option (TargetService × String) :=
  if strStartsWith path "auth/" || strStartsWith path "users/" then
    some (.authentication, path)
  else if strStartsWith path "authz/" then
    some (.authorization, String.mk (path.data.drop "authz/".length))
  else if strStartsWith path "policies/" then
    some (.authorization, path)
  else
    none

/-- The amended reading of the proxy rule: for `authz/` and `policies/`
paths the forwarded path is the input with the first occurrence of the
substring `"authz/"` removed (which coincides with prefix stripping on
`authz/`-prefixed paths). -/
def routeProxyAmended (path : String) : Option (TargetService × String) :=
  if strStartsWith path "auth/" || strStartsWith path "users/" then
    some (.authentication, path)
  else if strStartsWith path "authz/" then
    some (.authorization, String.mk (path.data.drop "authz/".length))
  else if strStartsWith path "policies/" then
    some (.authorization, strRemoveFirst path "authz/")
  else
    none

/-! ## Error envelopes (the three `http_exception_handler`s) -/

inductive JVal where
  | num (n : Nat)
  | str (s : String)
  deriving DecidableEq, Repr

/-- The `"error"` object built by the gateway's `http_exception_handler`:
code, message, the request path, and a unix timestamp (`time.time()`). -/
def gatewayErrBody (status : Nat) (detail : String) (reqPath : String) (now : Nat) :
    List (String × JVal) :=
  [("code", .num status), ("message", .str detail),
   ("path", .str reqPath), ("timestamp", .num now)]

/-- The `"error"` object built by the authentication service's
`http_exception_handler`: code, message, and an ISO-8601 timestamp string
(`datetime.utcnow().isoformat()`) — no `path` key. -/
def authnErrBody (status : Nat) (detail : String) (nowIso : String) :
    List (String × JVal) :=
  [("code", .num status), ("message", .str detail), ("timestamp", .str nowIso)]

/-- The `"error"` object built by the authorization service's
`http_exception_handler`: code, message, and an ISO-8601 timestamp string
— no `path` key. -/
def authzErrBody (status : Nat) (detail : String) (nowIso : String) :
    List (String × JVal) :=
  [("code", .num status), ("message", .str detail), ("timestamp", .str nowIso)]

/-- Whether an error object carries the `"path"` field required by the
spec's error envelope. -/
def errBodyHasPath (body : List (String × JVal)) : Bool :=
  (body.find? (fun kv => kv.1 == "path")).isSome

/-- Whether an error object carries a given key. -/
def errBodyHasKey (body : List (String × JVal)) (key : String) : Bool :=
  (body.find? (fun kv => kv.1 == key)).isSome

/-! ## Authorization service: `POST /authorize` (authorization-service/main.py) -/

inductive PolicyEffect where
  | permit
  | deny
  | indeterminate
  deriving DecidableEq, Repr

structure AuthzDecision where
  effect : PolicyEffect
  reason : String
  attributes_used : List String
  evaluation_time_ms : Nat
  cache_hit : Bool
  obligations : List String
  advice : List String
  timestamp : String
  deriving DecidableEq, Repr

structure AuthzResponse where
  success : Bool
  decision : AuthzDecision
  request_id : Option String
  deriving DecidableEq, Repr

/-- Outcome of `authorization_engine.authorize(request)` inside the
endpoint's `try` block: a response, or a raised exception. -/
inductive EngineOutcome where
  | ok (r : AuthzResponse)
  | exc (msg : String)
  deriving DecidableEq, Repr

/-- Models the `POST /authorize` endpoint: return the engine result, and
on any exception return HTTP 200 with `success=False` and a DENY decision
(`cache_hit=False`, empty obligations).  `reqId` is `request.request_id`
and `nowIso` the `datetime.utcnow().isoformat()` of the handler. -/
def authzAuthorizeEndpoint (reqId : Option String) (nowIso : String)
    (o : EngineOutcome) : Nat × AuthzResponse :=
  match o with
  | .ok r => (200, r)
  | .exc e =>
    (200,
     { success := false
       decision :=
        { effect := .deny
          reason := "Authorization error: " ++ e
          attributes_used := []
          evaluation_time_ms := 0
          cache_hit := false
          obligations := []
          advice := ["Check system logs for details"]
          timestamp := nowIso }
       request_id := reqId })

/-! ## Concrete scenario material -/

/-- The security configuration of the spec's lockout scenario:
`max_failed_attempts = 5`, lockout duration 1800 s. -/
def cfg5 : AuthConfig := ⟨5, 1800⟩

/-- A baseline active, unlocked user `alice` whose password is
`correct-horse` (hashed with salt 1). -/
def aliceRec : UserRec :=
  { id := "u1"
    username := "alice"
    email := "alice@example.com"
    first_name := none
    last_name := none
    display_name := none
    roles := ["user"]
    primary_role := "user"
    is_active := true
    email_verified := false
    mfa_enabled := false
    password_hash := bcryptHashpw "correct-horse" 1
    failed_login_attempts := 0
    locked_until := none
    last_login := none
    created_at := 0
    updated_at := none }

/-- Service states of the lockout scenario: state `n` is the result of `n`
consecutive wrong-password login attempts for `alice` at times 0, 1, …,
starting from a store holding only `aliceRec` and an empty cache. -/
def lockSt : Nat → SvcState
  | 0 => ⟨[aliceRec], [], []⟩
  | n + 1 => (authenticateUser cfg5 "alice" "badpw" n (lockSt n)).2

/-- C2.  For a user with `max_failed_attempts = 5`, five consecutive wrong-password
logins each yield HTTP 401 with audit reason `invalid_password`, but the account is
never locked: every attempt after the first recomputes the failure count from the
stale `username:alice` cache entry (which `_invalidate_user_cache` never removes),
so the stored counter stays at 1 and `locked_until` stays null.  The sixth attempt
with the correct password therefore authenticates successfully — the login handler
then answers 500 (attribute access on the returned dict), not the claimed 423
`account_locked`. -/
theorem lockout_scenario_never_locks :
    (loginEndpoint (authenticateUser cfg5 "alice" "badpw" 0 (lockSt 0)).1
        = (401, "Invalid credentials")
      ∧ loginEndpoint (authenticateUser cfg5 "alice" "badpw" 1 (lockSt 1)).1
        = (401, "Invalid credentials")
      ∧ loginEndpoint (authenticateUser cfg5 "alice" "badpw" 2 (lockSt 2)).1
        = (401, "Invalid credentials")
      ∧ loginEndpoint (authenticateUser cfg5 "alice" "badpw" 3 (lockSt 3)).1
        = (401, "Invalid credentials")
      ∧ loginEndpoint (authenticateUser cfg5 "alice" "badpw" 4 (lockSt 4)).1
        = (401, "Invalid credentials"))
    ∧ (lockSt 5).audit
      = List.replicate 5 ⟨some "u1", "login_failed", false, some "invalid_password"⟩
    ∧ (lockSt 5).db.find? (fun u => u.username == "alice")
      = some { aliceRec with failed_login_attempts := 1, updated_at := some 4 }
    ∧ (authenticateUser cfg5 "alice" "correct-horse" 5 (lockSt 5)).1 = some aliceRec
    ∧ loginEndpoint (authenticateUser cfg5 "alice" "correct-horse" 5 (lockSt 5)).1
      = (500, "Login failed")
    ∧ (loginEndpoint (authenticateUser cfg5 "alice" "correct-horse" 5 (lockSt 5)).1).1
      ≠ 423 := by
  refine ⟨⟨rfl, rfl, rfl, rfl, rfl⟩, rfl, rfl, rfl, rfl, ?_⟩
  decide

/-- State after one wrong-password attempt, at time 100, for an `alice`
already at `failed_login_attempts = 4`: the attempt reaches the
threshold and locks the account until time 1900. -/
def lockEdgeSt : SvcState :=
  (authenticateUser cfg5 "alice" "badpw" 100
    ⟨[{ aliceRec with failed_login_attempts := 4 }], [], []⟩).2

/-- C3.  When a failed password check raises the counter to
`max_failed_attempts`, `locked_until` is indeed written as
`now + lockout_duration` (here 100 + 1800 = 1900).  But a subsequent
authenticate at time 160 — with `locked_until = 1900 > 160` — with the
correct password succeeds instead of returning `account_locked`: the
`username:alice` cache entry created before the lock survives
`_invalidate_user_cache`, so the service reads the stale unlocked record
(and its success path then erases the lock). -/
theorem lock_set_but_stale_cache_allows_login :
    lockEdgeSt.db.find? (fun u => u.username == "alice")
      = some { aliceRec with failed_login_attempts := 5, locked_until := some 1900,
                             updated_at := some 100 }
    ∧ (1900 : Nat) > 160
    ∧ (authenticateUser cfg5 "alice" "correct-horse" 160 lockEdgeSt).1
      = some { aliceRec with failed_login_attempts := 4 }
    ∧ (authenticateUser cfg5 "alice" "correct-horse" 160 lockEdgeSt).2.audit.getLast?
      = some ⟨some "u1", "login_success", true, none⟩
    ∧ (authenticateUser cfg5 "alice" "correct-horse" 160 lockEdgeSt).2.db.find?
        (fun u => u.username == "alice")
      = some { aliceRec with failed_login_attempts := 0, locked_until := none,
                             last_login := some 160, updated_at := some 160 } := by
  refine ⟨rfl, by decide, rfl, rfl, rfl⟩

/-- State in which both cache keys for `alice` are populated, exactly as
the read paths populate them: a `get_user_by_username` then a
`get_user_by_id`, both at time 0. -/
def bothKeysSt : SvcState :=
  (getUserById ((getUserByUsername ⟨[aliceRec], [], []⟩ "alice" 0).2) "u1" 0).2

/-- C4.  `_invalidate_user_cache "u1"` removes the `user_id:u1` entry but
leaves the `username:alice` entry in place (it matches neither
`startswith("user_id:u1")` nor `endswith(":u1")`).  Consequently, after a
successful `change_password`, a username-keyed read within the cache TTL
still returns the pre-mutation record with the old password hash, while
the id-keyed read sees the new hash. -/
theorem invalidate_misses_username_key :
    bothKeysSt.cache
      = [("user_id:u1", ⟨aliceRec, 300⟩), ("username:alice", ⟨aliceRec, 300⟩)]
    ∧ invalidateUserCache bothKeysSt.cache "u1" = [("username:alice", ⟨aliceRec, 300⟩)]
    ∧ (changePassword "u1" "newpw" 9 50 bothKeysSt).1 = true
    ∧ (getUserByUsername (changePassword "u1" "newpw" 9 50 bothKeysSt).2 "alice" 60).1
      = some aliceRec
    ∧ (getUserById (changePassword "u1" "newpw" 9 50 bothKeysSt).2 "u1" 60).1
      = some { aliceRec with password_hash := bcryptHashpw "newpw" 9, updated_at := some 50 }
    ∧ aliceRec.password_hash ≠ bcryptHashpw "newpw" 9 := by
  refine ⟨rfl, rfl, rfl, rfl, rfl, by decide⟩

/-- State with a warm `username:alice` cache entry (read at time 0). -/
def warmCacheSt : SvcState :=
  (getUserByUsername ⟨[aliceRec], [], []⟩ "alice" 0).2

/-- C5.  For the active unlocked user `alice` with a warm username-cache
entry, `change_password("u1", "newpw")` at time 10 succeeds, yet
`authenticate("alice", "newpw")` at time 20 fails with reason
`invalid_password`: the stale cached record still carries the old hash
because `change_password`'s cache invalidation misses the username key. -/
theorem change_password_stale_cache_rejects_new_password :
    (changePassword "u1" "newpw" 9 10 warmCacheSt).1 = true
    ∧ (authenticateUser cfg5 "alice" "newpw" 20
        (changePassword "u1" "newpw" 9 10 warmCacheSt).2).1 = none
    ∧ (authenticateUser cfg5 "alice" "newpw" 20
        (changePassword "u1" "newpw" 9 10 warmCacheSt).2).2.audit.getLast?
      = some ⟨some "u1", "login_failed", false, some "invalid_password"⟩ := by
  refine ⟨rfl, rfl, rfl⟩

/-- C1 counterexample.  With the Authz upstream unreachable (a
non-`HTTPException` failure inside the handler body), the bulk-authorize
and create-policy routes answer HTTP 500 — not the 503 the claim states. -/
theorem gateway_bulk_unavailable_is_500_not_503 :
    gwAuthorizeBulk (.exc "connection refused")
      = .httpError 500 "Authorization service unavailable"
    ∧ gwCreatePolicy (.exc "connection refused")
      = .httpError 500 "Authorization service unavailable"
    ∧ (500 : Nat) ≠ 503 := by
  refine ⟨rfl, rfl, by decide⟩

/-- C1 amended.  On any non-`HTTPException` failure, the
`/api/v1/authz/authorize` handler — and only that handler among the
gateway's authorization-facing routes — returns the synthetic permit
fallback (reason containing "development fallback", `cache_hit = false`),
unconditionally (no configuration is consulted); every other such route
surfaces the failure as HTTP 500. -/
theorem gateway_fallback_only_authorize_amended (e : String) (now : Nat) :
    gwAuthorize (.exc e) now = .fallbackPermit (gwFallbackBody now)
    ∧ (gwFallbackBody now).effect = "permit"
    ∧ (gwFallbackBody now).cache_hit = false
    ∧ hasSubstr "development fallback" (gwFallbackBody now).reason = true
    ∧ gwAuthorizeBulk (.exc e) = .httpError 500 "Authorization service unavailable"
    ∧ gwAuthorizeBatchOptimized (.exc e) = .httpError 500 "Authorization service unavailable"
    ∧ gwListPolicies (.exc e) = .httpError 500 "Authorization service unavailable"
    ∧ gwCreatePolicy (.exc e) = .httpError 500 "Authorization service unavailable"
    ∧ gwQueryAudit (.exc e) = .httpError 500 "Authorization service unavailable"
    ∧ gwAuthzStatus (.exc e) = .httpError 500 "Authorization service unavailable" := by
  refine ⟨rfl, rfl, rfl, by rfl, rfl, rfl, rfl, rfl, rfl, rfl⟩

/-- C6 counterexample.  For the path `policies/authz/p1` — which starts
with `policies/`, so the spec's "`authz/` prefix stripped" rule would
forward it unchanged — the code removes the first embedded occurrence of
`"authz/"` (`str.replace(pat, "", 1)`) and forwards `policies/p1`
instead. -/
theorem proxy_policies_embedded_authz_counterexample :
    routeProxy "policies/authz/p1" = some (.authorization, "policies/p1")
    ∧ routeProxySpecClaim "policies/authz/p1" = some (.authorization, "policies/authz/p1")
    ∧ ("policies/p1" : String) ≠ "policies/authz/p1" := by
  refine ⟨rfl, rfl, by decide⟩

/-- Removing the first occurrence of a non-empty pattern that is a prefix
of `l` is exactly dropping that prefix. -/
theorem stripFirstOccur_of_isPrefixOf (pat l : List Char) (hne : pat ≠ [])
    (h : pat.isPrefixOf l = true) : stripFirstOccur pat l = l.drop pat.length := by
  cases l with
  | nil =>
    cases pat with
    | nil => exact absurd rfl hne
    | cons a as => simp [List.isPrefixOf] at h
  | cons c cs => simp [stripFirstOccur, h]

/-- C6 amended.  The generic proxy behaves as `routeProxyAmended`: `auth/`
and `users/` paths go to the authentication service unchanged; `authz/`
paths go to the authorization service with the `authz/` prefix stripped;
`policies/` paths go to the authorization service with the first
occurrence of the substring `"authz/"` removed (usually the identity);
all other paths are rejected with HTTP 404 `Service not found`. -/
theorem proxy_route_amended (path : String) :
    proxyHandle path
      = (match routeProxyAmended path with
         | some (svc, sp) => .forward svc ("/" ++ sp)
         | none => .reject 404 "Service not found") := by
  have hkey : routeProxy path = routeProxyAmended path := by
    unfold routeProxy routeProxyAmended
    by_cases h0 : (strStartsWith path "auth/" || strStartsWith path "users/") = true
    · simp [h0]
    · cases h1 : strStartsWith path "authz/" with
      | true =>
        have hstrip : strRemoveFirst path "authz/"
            = String.mk (path.data.drop "authz/".length) := by
          unfold strRemoveFirst
          rw [stripFirstOccur_of_isPrefixOf "authz/".data path.data (by decide) h1]
          rfl
        simp [h0, h1, hstrip]
      | false =>
        cases h2 : strStartsWith path "policies/" <;> simp [h0, h1, h2]
  unfold proxyHandle
  rw [hkey]

/-- C7 counterexample.  The error objects produced by the authentication
and authorization services' `http_exception_handler`s contain no `"path"`
key. -/
theorem authn_error_envelope_lacks_path :
    errBodyHasPath (authnErrBody 401 "Invalid credentials" "2026-10-12T00:00:00") = false
    ∧ errBodyHasPath (authzErrBody 500 "Internal server error" "2026-10-12T00:00:00")
      = false := by
  refine ⟨rfl, rfl⟩

/-- C7 amended.  The gateway's exception handler emits the full envelope
`{code, message, path, timestamp}` with a unix (numeric) timestamp; the
authentication and authorization services' handlers emit only
`{code, message, timestamp}`, with an ISO-8601 string timestamp and no
`path` field. -/
theorem error_envelope_amended (status : Nat) (detail reqPath nowIso : String) (now : Nat) :
    gatewayErrBody status detail reqPath now
      = [("code", .num status), ("message", .str detail),
         ("path", .str reqPath), ("timestamp", .num now)]
    ∧ errBodyHasPath (gatewayErrBody status detail reqPath now) = true
    ∧ errBodyHasKey (gatewayErrBody status detail reqPath now) "code" = true
    ∧ errBodyHasKey (gatewayErrBody status detail reqPath now) "message" = true
    ∧ errBodyHasKey (gatewayErrBody status detail reqPath now) "timestamp" = true
    ∧ authnErrBody status detail nowIso
      = [("code", .num status), ("message", .str detail), ("timestamp", .str nowIso)]
    ∧ errBodyHasPath (authnErrBody status detail nowIso) = false
    ∧ errBodyHasKey (authnErrBody status detail nowIso) "code" = true
    ∧ errBodyHasKey (authnErrBody status detail nowIso) "message" = true
    ∧ errBodyHasKey (authnErrBody status detail nowIso) "timestamp" = true
    ∧ errBodyHasPath (authzErrBody status detail nowIso) = false
    ∧ errBodyHasKey (authzErrBody status detail nowIso) "code" = true
    ∧ errBodyHasKey (authzErrBody status detail nowIso) "message" = true
    ∧ errBodyHasKey (authzErrBody status detail nowIso) "timestamp" = true := by
  refine ⟨rfl, rfl, rfl, rfl, rfl, rfl, rfl, rfl, rfl, rfl, rfl, rfl, rfl, rfl⟩

/-- C10.  The authorization service's `POST /authorize` endpoint is
fail-closed: whenever the engine raises, the handler still answers HTTP
200 with `success = false` and a DENY decision (`cache_hit = false`,
empty obligations) — never a permit and never a 5xx from this handler. -/
theorem authz_authorize_fail_closed (e : String) (reqId : Option String) (nowIso : String) :
    (authzAuthorizeEndpoint reqId nowIso (.exc e)).1 = 200
    ∧ (authzAuthorizeEndpoint reqId nowIso (.exc e)).2.success = false
    ∧ (authzAuthorizeEndpoint reqId nowIso (.exc e)).2.decision.effect = .deny
    ∧ (authzAuthorizeEndpoint reqId nowIso (.exc e)).2.decision.effect ≠ .permit
    ∧ (authzAuthorizeEndpoint reqId nowIso (.exc e)).2.decision.cache_hit = false
    ∧ (authzAuthorizeEndpoint reqId nowIso (.exc e)).2.decision.obligations = []
    ∧ (authzAuthorizeEndpoint reqId nowIso (.exc e)).2.request_id = reqId := by
  refine ⟨rfl, rfl, rfl, by simp [authzAuthorizeEndpoint], rfl, rfl, rfl⟩

/-- `get_user_by_username` is a read: it never changes the users table. -/
theorem getUserByUsername_db (s : SvcState) (un : String) (now : Nat) :
    ((getUserByUsername s un now).2).db = s.db := by
  simp only [getUserByUsername]
  split
  · rfl
  · split <;> rfl

/-- C8.  When `authenticate_user` succeeds and returns the record `u`, the
resulting users table is the old one with precisely the rows of `u.id`
rewritten: `failed_login_attempts` reset to 0, `locked_until` cleared,
`last_login` and `updated_at` stamped with `now`; every other field and
every other row is unchanged. -/
theorem authenticate_success_resets_only_login_fields
    (cfg : AuthConfig) (username password : String) (now : Nat) (s : SvcState)
    (u : UserRec)
    (h : (authenticateUser cfg username password now s).1 = some u) :
    (authenticateUser cfg username password now s).2.db
      = s.db.map (fun r =>
          if r.id == u.id then
            { r with failed_login_attempts := 0, locked_until := none,
                     last_login := some now, updated_at := some now }
          else r) := by
  rcases hg : getUserByUsername s username now with ⟨ou, s1⟩
  have hdb : s1.db = s.db := by
    have hd := getUserByUsername_db s username now
    rw [hg] at hd
    exact hd
  unfold authenticateUser at h ⊢
  rw [hg] at h ⊢
  cases ou with
  | none => simp at h
  | some u0 =>
    dsimp only at h ⊢
    split_ifs at h ⊢ with h1 h2 h3
    simp at h
    subst h
    simp only [logAuthEvent, updateLastLogin, resetFailedAttempts, dbUpdateUser,
      List.map_map, hdb]
    congr 1
    funext r
    by_cases hid : (r.id == u0.id) = true
    · simp [Function.comp, hid]
    · simp [Function.comp, hid]

/-- C8 witness: a concrete successful login for `alice` at
`failed_login_attempts = max_failed_attempts - 1 = 4`, showing the reset. -/
theorem authenticate_success_resets_witness :
    (authenticateUser cfg5 "alice" "correct-horse" 7
        ⟨[{ aliceRec with failed_login_attempts := 4 }], [], []⟩).1
      = some { aliceRec with failed_login_attempts := 4 }
    ∧ (authenticateUser cfg5 "alice" "correct-horse" 7
        ⟨[{ aliceRec with failed_login_attempts := 4 }], [], []⟩).2.db
      = (⟨[{ aliceRec with failed_login_attempts := 4 }], [], []⟩ : SvcState).db.map
          (fun r =>
            if r.id == ({ aliceRec with failed_login_attempts := 4 } : UserRec).id then
              { r with failed_login_attempts := 0, locked_until := none,
                       last_login := some 7, updated_at := some 7 }
            else r) :=
  ⟨rfl,
   authenticate_success_resets_only_login_fields cfg5 "alice" "correct-horse" 7
     ⟨[{ aliceRec with failed_login_attempts := 4 }], [], []⟩
     { aliceRec with failed_login_attempts := 4 } rfl⟩

/-- C9.  On a startup state (empty cache), `_create_default_admin` leaves
the users table unchanged when a user named `admin` exists, otherwise
appends exactly one user, whose username is `admin` and whose role set is
`{admin, user}`; and running the bootstrap twice yields the same users
table as running it once. -/
theorem create_default_admin_idempotent (db : List UserRec) (aud : List AuditEvent)
    (aid1 aid2 : String) (salt1 salt2 now1 now2 : Nat) :
    ((createDefaultAdmin aid1 salt1 now1 ⟨db, [], aud⟩).db
      = match db.find? (fun u => u.username == "admin") with
        | some _ => db
        | none => db ++ [mkUser adminData aid1 salt1 now1])
    ∧ (mkUser adminData aid1 salt1 now1).username = "admin"
    ∧ (mkUser adminData aid1 salt1 now1).roles = ["admin", "user"]
    ∧ (createDefaultAdmin aid2 salt2 now2
        (createDefaultAdmin aid1 salt1 now1 ⟨db, [], aud⟩)).db
      = (createDefaultAdmin aid1 salt1 now1 ⟨db, [], aud⟩).db := by
  cases h : db.find? (fun u => u.username == "admin") with
  | some u =>
    have h1 : createDefaultAdmin aid1 salt1 now1 ⟨db, [], aud⟩
        = ⟨db, [("username:admin", ⟨u, now1 + cacheTtl⟩)], aud⟩ := by
      simp [createDefaultAdmin, getUserByUsername, cacheGet, cacheSet, h]
    refine ⟨by rw [h1], rfl, rfl, ?_⟩
    rw [h1]
    by_cases hf : now1 + cacheTtl > now2
    · simp [createDefaultAdmin, getUserByUsername, cacheGet, hf]
    · simp [createDefaultAdmin, getUserByUsername, cacheGet, cacheSet, hf, h]
  | none =>
    have h1 : createDefaultAdmin aid1 salt1 now1 ⟨db, [], aud⟩
        = ⟨db ++ [mkUser adminData aid1 salt1 now1], [],
           aud ++ [⟨some aid1, "user_created", true, none⟩]⟩ := by
      simp [createDefaultAdmin, createUser, getUserByUsername, cacheGet, logAuthEvent,
        adminData, h]
    have hfind : (db ++ [mkUser adminData aid1 salt1 now1]).find?
        (fun u => u.username == "admin") = some (mkUser adminData aid1 salt1 now1) := by
      rw [List.find?_append, h]
      simp [mkUser, adminData]
    refine ⟨by rw [h1], rfl, rfl, ?_⟩
    rw [h1]
    simp [createDefaultAdmin, getUserByUsername, cacheGet, cacheSet, hfind]

end IAM
